import Mathlib

/-!
Verification of the wrapped-value core of `syft/generic/object.py`
(`AbstractObject`): entity state, construction, textual summary,
`get`/`mid_get`, tagging with self-healing registration, and the
`handle_func_command` / `rgetattr` dispatch protocol.

Shallow embedding conventions:
* Python mutation is explicit state passing; an escaping exception is an
  `Option`/`Except` failure or an `Option PyErr` component of the result.
* `sy.ID_PROVIDER`, `sy.local_worker`, and the raw leaf's `get()` live in an
  explicit `Env`; workers ("owners") live in a `World` indexed by reference.
* Python object references (`self.owner`, registry values) are modelled as
  indices; the registry tracks its key set, since the stored Python values
  are aliased references to the very objects being mutated.
-/

namespace Syft

/-- Python exceptions that the dispatch and tagging code distinguishes. -/
inductive PyErr : Type where
  | attributeError
  | typeError
  | runtimeError (msg : String)
  | otherError (n : Nat)
deriving DecidableEq

/-- Process-wide externals referenced by `AbstractObject`:
`sy.ID_PROVIDER` (modelled as a counter), `sy.local_worker` (a worker
reference or Python `None`), and the raw leaf value's own `get()`. -/
structure Env : Type where
  idCounter : Nat
  localWorker : Option Nat
  leafGet : Nat → Nat

/-- Modelled from the spec: `sy.ID_PROVIDER.pop()` — the external id
provider returns a fresh id on demand (here: the next counter value). -/
def Env.pop (env : Env) : Nat × Env :=
  (env.idCounter, { env with idCounter := env.idCounter + 1 })

mutual
/-- State of one `AbstractObject` instance: `type(self).__name__`, `id`,
`owner` (a worker reference, or Python `None`), `tags` (a Python set, or
Python `None`), `description`, and the `child` attribute.
`child = none` means the attribute is absent (`hasattr(self, "child")` is
false, possible for objects not built by `__init__`); `child = some c`
means the attribute is set to the Python value `c`. -/
inductive Obj : Type where
  | mk (typeName : String) (oid : Nat) (owner : Option Nat)
       (tags : Option (Finset String)) (description : Option String)
       (child : Option ChildVal) : Obj

/-- A Python value stored in the `child` attribute: `None`, another
wrapped object, or a raw leaf value. -/
inductive ChildVal : Type where
  | pyNone : ChildVal
  | wrapped (o : Obj) : ChildVal
  | leaf (v : Nat) : ChildVal
end

def Obj.typeName : Obj → String
  | .mk n _ _ _ _ _ => n

def Obj.oid : Obj → Nat
  | .mk _ i _ _ _ _ => i

def Obj.owner : Obj → Option Nat
  | .mk _ _ ow _ _ _ => ow

def Obj.tags : Obj → Option (Finset String)
  | .mk _ _ _ t _ _ => t

def Obj.description : Obj → Option String
  | .mk _ _ _ _ d _ => d

def Obj.child : Obj → Option ChildVal
  | .mk _ _ _ _ _ c => c

/-- Normalisation `self.tags = tags or set()`: Python `None` and the empty
set are falsy and are replaced by a fresh empty set. -/
def normTags : Option (Finset String) → Option (Finset String)
  | none => some ∅
  | some s => some (if s = ∅ then ∅ else s)

/-- `AbstractObject.__init__`: `self.owner = owner or sy.local_worker`
(a worker object is truthy, so only `None` falls back);
`self.id = id or sy.ID_PROVIDER.pop()` (both `None` and `0` are falsy);
`self.tags = tags or set()`; `self.description = description`;
`self.child = child`. The `child` attribute is always assigned. -/
def Obj.init (env : Env) (typeName : String) (idArg : Option Nat)
    (ownerArg : Option Nat) (tagsArg : Option (Finset String))
    (descriptionArg : Option String) (childArg : ChildVal) : Obj × Env :=
  let ownerF : Option Nat :=
    match ownerArg with
    | none => env.localWorker
    | some w => some w
  let idStep : Nat × Env :=
    match idArg with
    | none => env.pop
    | some 0 => env.pop
    | some n => (n, env)
  (.mk typeName idStep.1 ownerF (normTags tagsArg) descriptionArg
    (some childArg), idStep.2)

mutual
/-- `AbstractObject.__str__`: when `hasattr(self, "child")`, render
`type(self).__name__ + ">" + self.child.__str__()`; otherwise just the
type name. `__init__` always sets the attribute, so constructor-built
objects always take the first branch. -/
def Obj.str : Obj → String
  | .mk n _ _ _ _ none => n
  | .mk n _ _ _ _ (some c) => n ++ ">" ++ ChildVal.str c

/-- Python `__str__` of a `child` attribute value: `str(None) = "None"`,
a wrapped object recurses, a raw leaf renders its own text. -/
def ChildVal.str : ChildVal → String
  | .pyNone => "None"
  | .wrapped o => Obj.str o
  | .leaf v => toString v
end

/-- Modelled from the spec: `.on(child)` (defined outside this file's
source) attaches the given value as the `child` attribute of the freshly
constructed instance and returns that instance. -/
def Obj.on : Obj → ChildVal → Obj
  | .mk n i ow t d _, c => .mk n i ow t d (some c)

mutual
/-- `AbstractObject.get`: builds
`type(self)(**self.get_class_attributes(), owner=self.owner,
tags=self.tags, description=self.description, id=self.id)` — for this
class `get_class_attributes()` is `{}` — and then attaches
`self.child.get()` via `.on`. Python evaluates the constructor call
first, then the argument `self.child.get()`. `none` is an escaping
exception: `self.child` absent, or `None.get()` (an `AttributeError`). -/
def Obj.get (env : Env) : Obj → Option (Obj × Env)
  | .mk n i ow t d ch =>
    let base : Obj × Env := Obj.init env n (some i) ow t d .pyNone
    match ch with
    | none => none
    | some c =>
      match ChildVal.get base.2 c with
      | none => none
      | some cg => some (base.1.on cg.1, cg.2)

/-- `self.child.get()` for each possible `child` attribute value:
`None.get()` raises; a wrapped object recurses into `Obj.get`; a raw
leaf delegates to its own external `get()` (`Env.leafGet`). -/
def ChildVal.get (env : Env) : ChildVal → Option (ChildVal × Env)
  | .pyNone => none
  | .wrapped o =>
    match Obj.get env o with
    | none => none
    | some og => some (.wrapped og.1, og.2)
  | .leaf v => some (.leaf (env.leafGet v), env)
end

def Obj.setId : Obj → Nat → Obj
  | .mk n _ ow t d c, i => .mk n i ow t d c

def Obj.setTags : Obj → Option (Finset String) → Obj
  | .mk n i ow _ d c, t => .mk n i ow t d c

/-- One worker ("owner"/registry): the key set of `_objects` (the stored
values are aliased references in Python, so only the keys are tracked)
and `_tag_to_object_ids`, a `defaultdict(set)` from tag to id set. -/
structure Worker : Type where
  objects : List Nat
  tagIndex : String → Finset Nat

/-- All workers, addressed by reference. -/
abbrev World : Type := Nat → Worker

def World.set (w : World) (i : Nat) (wk : Worker) : World :=
  fun j => if j = i then wk else w j

/-- Modelled from the spec: `owner.register_obj(value)` stores the value
in the registry keyed by its id. -/
def Worker.register_obj (w : Worker) (o : Obj) : Worker :=
  { w with objects := if o.oid ∈ w.objects then w.objects else o.oid :: w.objects }

/-- `self.tags.add(tag)` — `tag()`'s initial guard guarantees `tags` is a
set (not `None`) when this runs. -/
def Obj.addTag : Obj → String → Obj
  | .mk n i ow t d c, s => .mk n i ow (some (insert s (t.getD ∅))) d c

/-- The owner-side effect of one iteration of `tag`'s loop: self-heal
registration (`register_obj` when `self.id` is missing from
`owner._objects`), then `owner._tag_to_object_ids[tag].add(self.id)`. -/
def tagStepWorld (o' : Obj) (world : World) (wid : Nat) (t : String) : World :=
  let w := world wid
  let w₁ := if o'.oid ∈ w.objects then w else w.register_obj o'
  let w₂ : Worker :=
    { w₁ with tagIndex := fun s => if s = t then insert o'.oid (w₁.tagIndex s) else w₁.tagIndex s }
  World.set world wid w₂

/-- The `for tag in tags:` loop of `AbstractObject.tag`: add the tag to
the local set; if `self.owner` is not `None`, apply the owner-side step;
otherwise raise
`RuntimeError("Can't tag a tensor which doesn't have an owner")`.
The result is the mutated object, the mutated world, and the escaping
exception, if any. -/
def Obj.tagLoop (o : Obj) (world : World) : List String → Obj × World × Option PyErr
  | [] => (o, world, none)
  | t :: rest =>
    let o' := o.addTag t
    match o'.owner with
    | some wid => Obj.tagLoop o' (tagStepWorld o' world wid t) rest
    | none => (o', world, some (.runtimeError "Can't tag a tensor which doesn't have an owner"))

/-- `AbstractObject.tag(*tags)`: `if self.tags is None: self.tags = set()`,
then the per-tag loop. On success Python returns `self` (the mutated
object, first component). -/
def Obj.tag (o : Obj) (world : World) (tagsArg : List String) : Obj × World × Option PyErr :=
  let o₁ :=
    match o.tags with
    | none => o.setTags (some ∅)
    | some _ => o
  Obj.tagLoop o₁ world tagsArg

/-- `AbstractObject.mid_get`: `child_id = self.id; tensor = self.get();
tensor.id = child_id; self.owner.register_obj(tensor)`. `none` is an
escaping exception (from `get()`, or `None.register_obj` when the owner
is absent). `self` itself is never reassigned. -/
def Obj.mid_get (env : Env) (world : World) (o : Obj) : Option (Obj × Env × World) :=
  let childId := o.oid
  match o.get env with
  | none => none
  | some tg =>
    let tensor := tg.1.setId childId
    match o.owner with
    | none => none
    | some wid => some (tensor, tg.2, World.set world wid ((world wid).register_obj tensor))

/-- A Python attribute value reachable during `rgetattr` resolution: a
map from attribute names to further attributes (`getattr`), and an
optional call behaviour (`none` means calling it raises `TypeError`).
Argument values are opaque (`Nat`). -/
inductive Attr : Type where
  | mk (attrs : String → Option Attr)
       (call : Option (List Nat → List (String × Nat) → Except PyErr Nat)) : Attr

/-- `getattr(a, s)` with no default: `none` is a raised `AttributeError`. -/
def Attr.getattr : Attr → String → Option Attr
  | .mk as _, s => as s

/-- Invoking a resolved attribute `cmd(*args_, **kwargs_)`: a
non-callable raises `TypeError`; a callable runs and either returns or
raises. -/
def Attr.call (a : Attr) (args_ : List Nat) (kwargs_ : List (String × Nat)) : Except PyErr Nat :=
  match a with
  | .mk _ none => .error .typeError
  | .mk _ (some f) => f args_ kwargs_

/-- Python `attr.split(".")` (splitting on every dot, never empty). -/
def splitDotAux : List Char → List Char → List String
  | [], acc => [String.mk acc.reverse]
  | c :: rest, acc =>
    if c = '.' then String.mk acc.reverse :: splitDotAux rest []
    else splitDotAux rest (c :: acc)

def splitDot (s : String) : List String :=
  splitDotAux s.toList []

/-- The value bound to `cmd` inside `handle_func_command`: initially the
operation-name string; after a successful override probe it is rebound to
the resolved attribute, and the rebound value is what the generic path
then receives. -/
inductive CmdVal : Type where
  | str (s : String)
  | attr (a : Attr)

/-- The forwarded command `(cmd, None, new_args, new_kwargs)` (the
always-`None` slot is omitted). -/
abbrev NewCommand : Type := CmdVal × List Nat × List (String × Nat)

/-- The dispatching class: its attribute namespace (probed by
`rgetattr`) and its `on_function_call` classmethod (the side-effect
hook; the base-class body is `pass`, i.e. `fun o => Except.ok Unit.unit`,
but variants may override it). -/
structure Cls : Type where
  attrs : String → Option Attr
  on_function_call : NewCommand → Except PyErr Unit

/-- Remaining steps of `functools.reduce(_getattr, [obj] + attr.split("."))`
after the first segment. -/
def rgetattrSegs (a : Attr) : List String → Option Attr
  | [] => some a
  | s :: rest =>
    match a.getattr s with
    | none => none
    | some a' => rgetattrSegs a' rest

/-- `AbstractObject.rgetattr(cls, cmd)` as used by dispatch: resolve the
dotted path left to right starting from the class; `none` is a raised
`AttributeError` (no default argument is supplied at this call site).
`splitDot` never returns `[]`, so the first branch is unreachable. -/
def Cls.rgetattr (cls : Cls) (attr : String) : Option Attr :=
  match splitDot attr with
  | [] => none
  | s :: rest =>
    match cls.attrs s with
    | none => none
    | some a => rgetattrSegs a rest

/-- Observable actions performed by dispatch, in order: the argument
unwrap, the side-effect hook call, the forward to the child type's
dispatcher, and the response rewrap. -/
inductive Ev : Type where
  | hookCall (command : NewCommand)
  | unwrapArgs
  | forwardCall
  | rewrapResponse

def Ev.isHook : Ev → Bool
  | .hookCall _ => true
  | _ => false

/-- External collaborators of the generic dispatch path (the `hook_args`
module and the child type's own dispatcher), opaque to this core. -/
structure HookArgsExt : Type where
  unwrap_args_from_function :
    CmdVal → List Nat → List (String × Nat) →
      Except PyErr (List Nat × List (String × Nat) × Nat)
  forward_handle_func_command : Nat → NewCommand → Except PyErr Nat
  hook_response : CmdVal → Nat → Cls → Except PyErr Nat

/-- The generic path of `handle_func_command` (everything after the
`try/except`): unwrap the arguments, build
`new_command = (cmd, None, new_args, new_kwargs)`, fire
`cls.on_function_call(new_command)`, forward to
`new_type.handle_func_command(new_command)`, and rewrap via
`hook_response(cmd, response, wrap_type=cls)`. An error at any step
escapes; the event list records the actions reached. -/
def Cls.generic_dispatch (cls : Cls) (ext : HookArgsExt) (cmd : CmdVal)
    (args_ : List Nat) (kwargs_ : List (String × Nat)) : List Ev × Except PyErr Nat :=
  match ext.unwrap_args_from_function cmd args_ kwargs_ with
  | .error e => ([.unwrapArgs], .error e)
  | .ok (new_args, new_kwargs, new_type) =>
    let new_command : NewCommand := (cmd, new_args, new_kwargs)
    match cls.on_function_call new_command with
    | .error e => ([.unwrapArgs, .hookCall new_command], .error e)
    | .ok _ =>
      match ext.forward_handle_func_command new_type new_command with
      | .error e => ([.unwrapArgs, .hookCall new_command, .forwardCall], .error e)
      | .ok response =>
        match ext.hook_response cmd response cls with
        | .error e =>
          ([.unwrapArgs, .hookCall new_command, .forwardCall, .rewrapResponse], .error e)
        | .ok r =>
          ([.unwrapArgs, .hookCall new_command, .forwardCall, .rewrapResponse], .ok r)

/-- `AbstractObject.handle_func_command(command)`: destructure
`cmd, _, args_, kwargs_ = command`, then
`try: cmd = cls.rgetattr(cls, cmd); return cmd(*args_, **kwargs_)
except AttributeError: pass`. Both the path resolution and the override
invocation sit inside the same `try`, so an `AttributeError` raised by
the invocation itself is also caught, and in that case `cmd` has already
been rebound to the resolved attribute when the generic path runs. Any
other exception escapes. -/
def Cls.handle_func_command (cls : Cls) (ext : HookArgsExt)
    (command : String × List Nat × List (String × Nat)) : List Ev × Except PyErr Nat :=
  let cmd := command.1
  let args_ := command.2.1
  let kwargs_ := command.2.2
  match cls.rgetattr cmd with
  | some a =>
    match a.call args_ kwargs_ with
    | .error .attributeError => cls.generic_dispatch ext (.attr a) args_ kwargs_
    | r => ([], r)
  | none => cls.generic_dispatch ext (.str cmd) args_ kwargs_

/-- A default environment for concrete instantiations: next fresh id 100,
a local worker absent, leaf `get()` the identity. -/
def env₀ : Env := ⟨100, none, fun v => v⟩

/-- An empty worker: nothing registered, every tag-index entry empty. -/
def world₀ : World := fun _ => ⟨[], fun _ => ∅⟩

/-- The three-layer chain `A(child=B(child=C()))` built through
`__init__` with explicit truthy ids (so the id provider is never
consulted). -/
def chainABC : Obj :=
  (Obj.init env₀ "A" (some 3) (some 0) (some ∅) none
    (.wrapped ((Obj.init env₀ "B" (some 2) (some 0) (some ∅) none
      (.wrapped ((Obj.init env₀ "C" (some 1) (some 0) (some ∅) none .pyNone).1))).1))).1

/-- An attribute named `shape` whose invocation raises `AttributeError`:
the probe resolves it, but calling it raises the very exception the
dispatcher's handler catches. -/
def shapeAttr : Attr := .mk (fun _ => none) (some (fun _ _ => .error .attributeError))

/-- A variant defining `shape` as a direct attribute, with the
base-class (no-op) side-effect hook. -/
def cls₁ : Cls := ⟨fun s => if s = "shape" then some shapeAttr else none, fun _ => .ok ()⟩

/-- An attribute named `boom` whose invocation raises an exception other
than `AttributeError`. -/
def boomAttr : Attr := .mk (fun _ => none) (some (fun _ _ => .error (.otherError 1)))

/-- A variant defining `boom` as a direct attribute. -/
def cls₂ : Cls := ⟨fun s => if s = "boom" then some boomAttr else none, fun _ => .ok ()⟩

/-- A variant with no attributes at all: every override probe misses. -/
def cls₃ : Cls := ⟨fun _ => none, fun _ => .ok ()⟩

/-- Benign concrete external collaborators: unwrap yields empty
arguments and child type `0`, the forward returns `42`, the rewrap is
the identity. -/
def ext₁ : HookArgsExt :=
  ⟨fun _ _ _ => .ok ([], [], 0), fun _ _ => .ok 42, fun _ r _ => .ok r⟩

theorem Obj.addTag_owner (o : Obj) (t : String) : (o.addTag t).owner = o.owner := by
  cases o
  rfl

theorem Obj.addTag_oid (o : Obj) (t : String) : (o.addTag t).oid = o.oid := by
  cases o
  rfl

theorem Obj.setTags_owner (o : Obj) (t : Option (Finset String)) :
    (o.setTags t).owner = o.owner := by
  cases o
  rfl

theorem Obj.setTags_oid (o : Obj) (t : Option (Finset String)) :
    (o.setTags t).oid = o.oid := by
  cases o
  rfl

theorem Obj.setId_oid (o : Obj) (i : Nat) : (o.setId i).oid = i := by
  cases o
  rfl

theorem normTags_some (s : Finset String) : normTags (some s) = some s := by
  simp only [normTags]
  split
  · simp_all
  · rfl

/-- C5: the claim's scenario fails on the code: `__init__` always assigns
the `child` attribute, so a constructor-built leaf `C()` holds `child =
None`, `hasattr(self, "child")` is true, and the chain
`A(child=B(child=C()))` renders `"A>B>C>None"`, not `"A>B>C"`. -/
theorem C5_counterexample :
    Obj.str chainABC = "A>B>C>None" ∧ Obj.str chainABC ≠ "A>B>C" := by
  constructor
  · rfl
  · decide

/-- C5 (amended): the rendering is the type name, then `">"`, then the
child's rendering, recursively, and an object lacking the `child`
attribute renders just its type name — so a chain over a `C` that lacks
the attribute renders `"A>B>C"`; but `__init__` always assigns the
`child` attribute, so a constructor-built leaf holds `None` there and
the constructor-built three-layer chain renders `"A>B>C>None"`. -/
theorem C5_textual_summary_amended (nA nB nC : String) (iA iB iC : Nat)
    (owA owB owC : Option Nat) (tA tB tC : Option (Finset String))
    (dA dB dC : Option String) :
    (Obj.str (.mk nA iA owA tA dA (some (.wrapped (.mk nB iB owB tB dB
        (some (.wrapped (.mk nC iC owC tC dC none)))))))
      = nA ++ ">" ++ nB ++ ">" ++ nC)
    ∧ (∀ (env : Env) (c : ChildVal),
        ((Obj.init env nC (some iC) owC tC dC c).1).child = some c)
    ∧ (Obj.str (.mk nA iA owA tA dA (some (.wrapped (.mk nB iB owB tB dB
        (some (.wrapped (.mk nC iC owC tC dC (some .pyNone))))))))
      = nA ++ ">" ++ nB ++ ">" ++ nC ++ ">" ++ "None") := by
  refine ⟨?_, fun env c => rfl, ?_⟩
  · simp [Obj.str, ChildVal.str, String.append_assoc]
  · simp [Obj.str, ChildVal.str, String.append_assoc]

/-- C9: the constructor treats a falsy id (`0` or `None`) as absent and
draws a fresh id from the provider (advancing it), replaces falsy `tags`
(`None` or the empty set) with an empty set, and consequently `get()` on
a value whose id is `0` returns an object with a different id (here
`7`, the provider's next id, instead of `0`). -/
theorem C9_falsy_defaulting :
    (∀ (env : Env) (n : String) (ow : Option Nat) (t : Option (Finset String))
        (d : Option String) (c : ChildVal),
        ((Obj.init env n (some 0) ow t d c).1).oid = env.idCounter
        ∧ ((Obj.init env n (some 0) ow t d c).2).idCounter = env.idCounter + 1)
    ∧ (∀ (env : Env) (n : String) (idA ow : Option Nat) (d : Option String) (c : ChildVal),
        ((Obj.init env n idA ow (some ∅) d c).1).tags = some ∅
        ∧ ((Obj.init env n idA ow none d c).1).tags = some ∅)
    ∧ ((Obj.get ⟨7, none, fun v => v⟩
          (.mk "A" 0 (some 1) (some ∅) none (some (.leaf 3)))).map (fun p => p.1.oid)
        ≠ some ((Obj.mk "A" 0 (some 1) (some ∅) none (some (.leaf 3))).oid))
    ∧ ((Obj.get ⟨7, none, fun v => v⟩
          (.mk "A" 0 (some 1) (some ∅) none (some (.leaf 3)))).map (fun p => p.1.oid)
        = some 7) := by
  refine ⟨fun env n ow t d c => ⟨rfl, rfl⟩, fun env n idA ow d c => ⟨?_, rfl⟩, by decide, by decide⟩
  cases idA with
  | none => rfl
  | some k =>
    cases k with
    | zero => rfl
    | succ m => rfl

theorem tagLoop_err_none (ts : List String) (o : Obj) (w : World) (wid : Nat)
    (h : o.owner = some wid) : (Obj.tagLoop o w ts).2.2 = none := by
  induction ts generalizing o w with
  | nil => rfl
  | cons t rest ih =>
    have h' : (o.addTag t).owner = some wid := by rw [Obj.addTag_owner, h]
    simp only [Obj.tagLoop, h']
    exact ih _ _ h'

/-- C6: tagging with at least one tag on a value whose owner is `None`
raises the no-owner `RuntimeError`; when an owner is present the call
never raises it. -/
theorem C6_no_owner_tagging (o : Obj) (w : World) (ts : List String) :
    (o.owner = none → ts ≠ [] →
      (o.tag w ts).2.2
        = some (.runtimeError "Can't tag a tensor which doesn't have an owner"))
    ∧ (∀ wid : Nat, o.owner = some wid → (o.tag w ts).2.2 = none) := by
  constructor
  · intro h hne
    cases ts with
    | nil => exact absurd rfl hne
    | cons t rest =>
      cases ho : o.tags with
      | none =>
        have h1 : ((o.setTags (some ∅)).addTag t).owner = none := by
          rw [Obj.addTag_owner, Obj.setTags_owner, h]
        simp only [Obj.tag, ho, Obj.tagLoop, h1]
      | some s =>
        have h1 : (o.addTag t).owner = none := by rw [Obj.addTag_owner, h]
        simp only [Obj.tag, ho, Obj.tagLoop, h1]
  · intro wid h
    cases ho : o.tags with
    | none =>
      simp only [Obj.tag, ho]
      exact tagLoop_err_none ts _ w wid (by rw [Obj.setTags_owner, h])
    | some s =>
      simp only [Obj.tag, ho]
      exact tagLoop_err_none ts o w wid h

theorem C6_no_owner_tagging_witness :
    (((Obj.mk "A" 5 none (some ∅) none none).tag world₀ ["private"]).2.2
      = some (.runtimeError "Can't tag a tensor which doesn't have an owner"))
    ∧ (((Obj.mk "A" 5 (some 0) (some ∅) none none).tag world₀ ["private"]).2.2 = none) :=
  ⟨(C6_no_owner_tagging (Obj.mk "A" 5 none (some ∅) none none) world₀ ["private"]).1
      rfl (by decide),
   (C6_no_owner_tagging (Obj.mk "A" 5 (some 0) (some ∅) none none) world₀ ["private"]).2
      0 rfl⟩

/-- C10: calling `tag` with `n ≥ 1` tags on an ownerless value raises
from inside the per-tag loop, after the first tag has already been added
to the local tag set — so the failing call leaves the first tag in the
set, and (when the tag was new) the local tag set visibly mutated. -/
theorem C10_non_atomic_tag_failure (o : Obj) (w : World) (t : String) (rest : List String)
    (h : o.owner = none) :
    ((o.tag w (t :: rest)).2.2
      = some (.runtimeError "Can't tag a tensor which doesn't have an owner"))
    ∧ t ∈ ((o.tag w (t :: rest)).1.tags.getD ∅)
    ∧ (t ∉ (o.tags.getD ∅) → (o.tag w (t :: rest)).1.tags ≠ o.tags) := by
  obtain ⟨n, i, ow, tg, d, c⟩ := o
  simp only [Obj.owner] at h
  subst h
  cases tg with
  | none =>
    refine ⟨rfl, Finset.mem_insert_self t ∅, fun _ => ?_⟩
    show some (insert t ∅) ≠ none
    simp
  | some s =>
    refine ⟨rfl, Finset.mem_insert_self t s, fun hne => ?_⟩
    simp only [Obj.tags, Option.getD_some] at hne
    show some (insert t s) ≠ some s
    simp only [ne_eq, Option.some.injEq]
    exact Finset.insert_ne_self.mpr hne

theorem C10_non_atomic_tag_failure_witness :
    (((Obj.mk "A" 5 none (some ∅) none none).tag world₀ ["private", "x"]).2.2
      = some (.runtimeError "Can't tag a tensor which doesn't have an owner"))
    ∧ "private" ∈ (((Obj.mk "A" 5 none (some ∅) none none).tag world₀ ["private", "x"]).1.tags.getD ∅)
    ∧ ("private" ∉ ((Obj.mk "A" 5 none (some ∅) none none).tags.getD ∅) →
        ((Obj.mk "A" 5 none (some ∅) none none).tag world₀ ["private", "x"]).1.tags
          ≠ (Obj.mk "A" 5 none (some ∅) none none).tags) :=
  C10_non_atomic_tag_failure (Obj.mk "A" 5 none (some ∅) none none) world₀ "private" ["x"] rfl

/-- C8: with an owner present, tagging with an already-present tag keeps
the tag set's cardinality unchanged, and after any `tag(t)` the owner's
tag index entry for `t` contains the value's id — exactly once, the
entry being a set. -/
theorem C8_tag_idempotence (o : Obj) (w : World) (wid : Nat) (t : String)
    (how : o.owner = some wid) :
    (∀ s : Finset String, o.tags = some s → t ∈ s →
        (((o.tag w [t]).1.tags.getD ∅)).card = s.card)
    ∧ o.oid ∈ (((o.tag w [t]).2.1 wid).tagIndex t)
    ∧ Multiset.count o.oid ((((o.tag w [t]).2.1 wid).tagIndex t)).val = 1 := by
  obtain ⟨n, i, ow, tg, d, c⟩ := o
  simp only [Obj.owner] at how
  subst how
  cases tg with
  | none =>
    have hM : i ∈ (((Obj.tag (.mk n i (some wid) none d c) w [t]).2.1 wid).tagIndex t) := by
      simp only [Obj.tag, Obj.tags, Obj.setTags, Obj.tagLoop, Obj.addTag, Obj.owner, Obj.oid,
        tagStepWorld, World.set, Option.getD_none, if_pos]
      exact Finset.mem_insert_self i _
    exact ⟨fun s hs => Option.noConfusion hs, hM,
      Multiset.count_eq_one_of_mem (Finset.nodup _) hM⟩
  | some s₀ =>
    have hM : i ∈ (((Obj.tag (.mk n i (some wid) (some s₀) d c) w [t]).2.1 wid).tagIndex t) := by
      simp only [Obj.tag, Obj.tags, Obj.tagLoop, Obj.addTag, Obj.owner, Obj.oid,
        tagStepWorld, World.set, Option.getD_some, if_pos]
      exact Finset.mem_insert_self i _
    refine ⟨fun s hs ht => ?_, hM, Multiset.count_eq_one_of_mem (Finset.nodup _) hM⟩
    have hss : s₀ = s := Option.some.inj hs
    subst hss
    rw [show (Obj.tag (.mk n i (some wid) (some s₀) d c) w [t]).1.tags.getD ∅
        = insert t s₀ from rfl]
    exact Finset.card_insert_of_mem ht

theorem C8_tag_idempotence_witness :
    ((((Obj.mk "A" 5 (some 0) (some {"private"}) none none).tag
          world₀ ["private"]).1.tags.getD ∅).card = ({"private"} : Finset String).card)
    ∧ (5 ∈ ((((Obj.mk "A" 5 (some 0) (some {"private"}) none none).tag
          world₀ ["private"]).2.1 0).tagIndex "private"))
    ∧ (Multiset.count 5 (((((Obj.mk "A" 5 (some 0) (some {"private"}) none none).tag
          world₀ ["private"]).2.1 0).tagIndex "private")).val = 1) := by
  have h := C8_tag_idempotence (Obj.mk "A" 5 (some 0) (some {"private"}) none none)
    world₀ 0 "private" rfl
  exact ⟨h.1 {"private"} rfl (by decide), h.2.1, h.2.2⟩

theorem tagStepWorld_eval (o' : Obj) (w : World) (wid : Nat) (t : String) :
    (tagStepWorld o' w wid t) wid
      = { objects :=
            (if o'.oid ∈ (w wid).objects then w wid else (w wid).register_obj o').objects,
          tagIndex := fun s =>
            if s = t then
              insert o'.oid
                ((if o'.oid ∈ (w wid).objects then w wid else (w wid).register_obj o').tagIndex s)
            else
              (if o'.oid ∈ (w wid).objects then w wid else (w wid).register_obj o').tagIndex s } := by
  simp [tagStepWorld, World.set]

theorem tagStepWorld_objects_mono (o' : Obj) (w : World) (wid : Nat) (t : String) (x : Nat)
    (hx : x ∈ (w wid).objects) : x ∈ ((tagStepWorld o' w wid t) wid).objects := by
  rw [tagStepWorld_eval]
  show x ∈ (if o'.oid ∈ (w wid).objects then w wid else (w wid).register_obj o').objects
  split
  · exact hx
  · rename_i hnot
    show x ∈ (if o'.oid ∈ (w wid).objects then (w wid).objects else o'.oid :: (w wid).objects)
    rw [if_neg hnot]
    exact List.mem_cons_of_mem _ hx

theorem tagStepWorld_tagIndex_mono (o' : Obj) (w : World) (wid : Nat) (t s : String) (x : Nat)
    (hx : x ∈ (w wid).tagIndex s) : x ∈ ((tagStepWorld o' w wid t) wid).tagIndex s := by
  rw [tagStepWorld_eval]
  show x ∈ (if s = t then
      insert o'.oid ((if o'.oid ∈ (w wid).objects then w wid else (w wid).register_obj o').tagIndex s)
    else (if o'.oid ∈ (w wid).objects then w wid else (w wid).register_obj o').tagIndex s)
  have hbase : x ∈ (if o'.oid ∈ (w wid).objects then w wid else (w wid).register_obj o').tagIndex s := by
    split
    · exact hx
    · exact hx
  split
  · exact Finset.mem_insert_of_mem hbase
  · exact hbase

theorem tagStepWorld_objects_self (o' : Obj) (w : World) (wid : Nat) (t : String) :
    o'.oid ∈ ((tagStepWorld o' w wid t) wid).objects := by
  rw [tagStepWorld_eval]
  show o'.oid ∈ (if o'.oid ∈ (w wid).objects then w wid else (w wid).register_obj o').objects
  split
  · rename_i hin
    exact hin
  · rename_i hnot
    show o'.oid ∈ (if o'.oid ∈ (w wid).objects then (w wid).objects else o'.oid :: (w wid).objects)
    rw [if_neg hnot]
    exact List.mem_cons_self _ _

theorem tagStepWorld_tagIndex_self (o' : Obj) (w : World) (wid : Nat) (t : String) :
    o'.oid ∈ ((tagStepWorld o' w wid t) wid).tagIndex t := by
  rw [tagStepWorld_eval]
  show o'.oid ∈ (if t = t then
      insert o'.oid ((if o'.oid ∈ (w wid).objects then w wid else (w wid).register_obj o').tagIndex t)
    else (if o'.oid ∈ (w wid).objects then w wid else (w wid).register_obj o').tagIndex t)
  rw [if_pos rfl]
  exact Finset.mem_insert_self _ _

theorem tagLoop_objects_mono (ts : List String) (o : Obj) (w : World) (wid : Nat) (x : Nat)
    (h : o.owner = some wid) (hx : x ∈ (w wid).objects) :
    x ∈ (((Obj.tagLoop o w ts).2.1) wid).objects := by
  induction ts generalizing o w with
  | nil => exact hx
  | cons t rest ih =>
    have h' : (o.addTag t).owner = some wid := by rw [Obj.addTag_owner, h]
    simp only [Obj.tagLoop, h']
    exact ih _ _ h' (tagStepWorld_objects_mono _ w wid t x hx)

theorem tagLoop_tagIndex_mono (ts : List String) (o : Obj) (w : World) (wid : Nat)
    (s : String) (x : Nat) (h : o.owner = some wid) (hx : x ∈ (w wid).tagIndex s) :
    x ∈ (((Obj.tagLoop o w ts).2.1) wid).tagIndex s := by
  induction ts generalizing o w with
  | nil => exact hx
  | cons t rest ih =>
    have h' : (o.addTag t).owner = some wid := by rw [Obj.addTag_owner, h]
    simp only [Obj.tagLoop, h']
    exact ih _ _ h' (tagStepWorld_tagIndex_mono _ w wid t s x hx)

theorem tagLoop_registers (ts : List String) (o : Obj) (w : World) (wid : Nat)
    (h : o.owner = some wid) :
    (∀ t ∈ ts, o.oid ∈ (((Obj.tagLoop o w ts).2.1) wid).tagIndex t)
    ∧ (ts ≠ [] → o.oid ∈ (((Obj.tagLoop o w ts).2.1) wid).objects) := by
  induction ts generalizing o w with
  | nil =>
    exact ⟨fun t ht => absurd ht (List.not_mem_nil t), fun hne => absurd rfl hne⟩
  | cons t rest ih =>
    have h' : (o.addTag t).owner = some wid := by rw [Obj.addTag_owner, h]
    have hoid : (o.addTag t).oid = o.oid := Obj.addTag_oid o t
    simp only [Obj.tagLoop, h']
    constructor
    · intro u hu
      rcases List.mem_cons.mp hu with hu' | hu'
      · rw [hu']
        exact tagLoop_tagIndex_mono rest (o.addTag t) (tagStepWorld (o.addTag t) w wid t)
          wid t o.oid h' (by rw [← hoid]; exact tagStepWorld_tagIndex_self _ w wid t)
      · have := (ih (o.addTag t) (tagStepWorld (o.addTag t) w wid t) h').1 u hu'
        rw [hoid] at this
        exact this
    · intro _
      exact tagLoop_objects_mono rest (o.addTag t) (tagStepWorld (o.addTag t) w wid t)
        wid o.oid h' (by rw [← hoid]; exact tagStepWorld_objects_self _ w wid t)

/-- C4: calling `tag(t1, ..., tn)` (n ≥ 1) on a value that has an owner
but whose id is absent from the owner's `_objects` completes without
error, registers the value in the owner's store under its id, and puts
the value's id into the owner's reverse tag index under every supplied
tag. -/
theorem C4_self_healing_registration (o : Obj) (w : World) (wid : Nat) (ts : List String)
    (how : o.owner = some wid) (habs : o.oid ∉ (w wid).objects) (hne : ts ≠ []) :
    (o.tag w ts).2.2 = none
    ∧ o.oid ∈ (((o.tag w ts).2.1) wid).objects
    ∧ ∀ t ∈ ts, o.oid ∈ (((o.tag w ts).2.1) wid).tagIndex t := by
  have hid : o.oid ∉ (w wid).objects := habs
  clear hid
  cases ho : o.tags with
  | none =>
    have h1 : (o.setTags (some ∅)).owner = some wid := by rw [Obj.setTags_owner, how]
    have h2 : (o.setTags (some ∅)).oid = o.oid := Obj.setTags_oid o _
    simp only [Obj.tag, ho]
    have hreg := tagLoop_registers ts (o.setTags (some ∅)) w wid h1
    rw [h2] at hreg
    exact ⟨tagLoop_err_none ts _ w wid h1, hreg.2 hne, hreg.1⟩
  | some s =>
    simp only [Obj.tag, ho]
    have hreg := tagLoop_registers ts o w wid how
    exact ⟨tagLoop_err_none ts o w wid how, hreg.2 hne, hreg.1⟩

theorem C4_self_healing_registration_witness :
    ((Obj.mk "A" 5 (some 0) (some ∅) none none).tag world₀ ["private"]).2.2 = none
    ∧ 5 ∈ ((((Obj.mk "A" 5 (some 0) (some ∅) none none).tag world₀ ["private"]).2.1) 0).objects
    ∧ ∀ t ∈ ["private"],
        5 ∈ ((((Obj.mk "A" 5 (some 0) (some ∅) none none).tag world₀ ["private"]).2.1) 0).tagIndex t :=
  C4_self_healing_registration (Obj.mk "A" 5 (some 0) (some ∅) none none) world₀ 0 ["private"]
    rfl (by decide) (by decide)

/-- C7: on a value with an owner whose `get()` succeeds, `mid_get()`
calls `get()`, forces the retrieved value's id back to the id the value
had before the call, and registers the retrieved value with the owner;
the original value itself is never reassigned (its id field is
untouched, `mid_get` only mutates the freshly retrieved instance). -/
theorem C7_mid_get_re_registration (env : Env) (world : World) (o : Obj) (wid : Nat)
    (tensor : Obj) (env' : Env)
    (how : o.owner = some wid) (hget : o.get env = some (tensor, env')) :
    Obj.mid_get env world o
      = some (tensor.setId o.oid, env',
          World.set world wid ((world wid).register_obj (tensor.setId o.oid)))
    ∧ (tensor.setId o.oid).oid = o.oid
    ∧ o.oid ∈ ((World.set world wid ((world wid).register_obj (tensor.setId o.oid))) wid).objects := by
  refine ⟨?_, Obj.setId_oid tensor o.oid, ?_⟩
  · simp only [Obj.mid_get, hget, how]
  · have hw : (World.set world wid ((world wid).register_obj (tensor.setId o.oid))) wid
        = (world wid).register_obj (tensor.setId o.oid) := by
      simp [World.set]
    rw [hw]
    show o.oid ∈ (if (tensor.setId o.oid).oid ∈ (world wid).objects then (world wid).objects
      else (tensor.setId o.oid).oid :: (world wid).objects)
    rw [Obj.setId_oid]
    split
    · rename_i hin
      exact hin
    · exact List.mem_cons_self _ _

theorem C7_mid_get_re_registration_witness :
    Obj.mid_get ⟨100, none, fun v => v + 10⟩ world₀
        (.mk "A" 5 (some 0) (some ∅) none (some (.leaf 3)))
      = some ((Obj.mk "A" 5 (some 0) (some ∅) none (some (.leaf 13))).setId 5,
          ⟨100, none, fun v => v + 10⟩,
          World.set world₀ 0 ((world₀ 0).register_obj
            ((Obj.mk "A" 5 (some 0) (some ∅) none (some (.leaf 13))).setId 5)))
    ∧ ((Obj.mk "A" 5 (some 0) (some ∅) none (some (.leaf 13))).setId 5).oid = 5
    ∧ 5 ∈ ((World.set world₀ 0 ((world₀ 0).register_obj
          ((Obj.mk "A" 5 (some 0) (some ∅) none (some (.leaf 13))).setId 5))) 0).objects :=
  C7_mid_get_re_registration ⟨100, none, fun v => v + 10⟩ world₀
    (.mk "A" 5 (some 0) (some ∅) none (some (.leaf 3))) 0
    (.mk "A" 5 (some 0) (some ∅) none (some (.leaf 13))) ⟨100, none, fun v => v + 10⟩
    rfl rfl

/-- C3: the claim fails as stated: the constructor treats a falsy id as
absent, so a wrapped value whose id is `0` does not keep its id across
`get()` — here the provider hands out `7` instead. -/
theorem C3_counterexample :
    (Obj.mk "A" 0 (some 1) (some ∅) none (some (.leaf 3))).oid = 0
    ∧ ((Obj.get ⟨7, none, fun v => v⟩
          (.mk "A" 0 (some 1) (some ∅) none (some (.leaf 3)))).map (fun p => p.1.oid)
        ≠ some ((Obj.mk "A" 0 (some 1) (some ∅) none (some (.leaf 3))).oid)) := by
  constructor
  · rfl
  · decide

/-- C3 (amended): for a value whose id is truthy (nonzero), whose owner
is present, and whose `tags` field is an actual set, and whose child's
`get()` succeeds, `get()` returns a new instance of the same variant
with the same id, tags, description, and owner, whose child is the
result of the child's `get()`. -/
theorem C3_get_round_trip_amended (env : Env) (n : String) (i : Nat) (wid : Nat)
    (s : Finset String) (d : Option String) (c : ChildVal) (cg : ChildVal) (env₂ : Env)
    (hi : i ≠ 0) (hc : ChildVal.get env c = some (cg, env₂)) :
    Obj.get env (.mk n i (some wid) (some s) d (some c))
      = some (.mk n i (some wid) (some s) d (some cg), env₂) := by
  cases i with
  | zero => exact absurd rfl hi
  | succ k =>
    simp only [Obj.get, Obj.init, normTags_some, hc, Obj.on]

theorem C3_get_round_trip_amended_witness :
    Obj.get ⟨100, none, fun v => v + 10⟩ (.mk "A" 5 (some 0) (some ∅) none (some (.leaf 3)))
      = some (.mk "A" 5 (some 0) (some ∅) none (some (.leaf 13)),
          (⟨100, none, fun v => v + 10⟩ : Env)) :=
  C3_get_round_trip_amended ⟨100, none, fun v => v + 10⟩ "A" 5 0 ∅ none (.leaf 3) (.leaf 13)
    ⟨100, none, fun v => v + 10⟩ (by decide) rfl

/-- C1: the claim fails as stated: when the resolved override's
invocation raises `AttributeError`, dispatch does not return that
invocation's outcome — the invocation sits inside the same
`try/except AttributeError` as the probe, so dispatch falls through to
the generic path: the side-effect hook fires and the generic response
(`.ok 42`) is returned. -/
theorem C1_counterexample :
    cls₁.rgetattr "shape" = some shapeAttr
    ∧ shapeAttr.call [] [] = .error .attributeError
    ∧ (cls₁.handle_func_command ext₁ ("shape", [], [])).1.any Ev.isHook = true
    ∧ (cls₁.handle_func_command ext₁ ("shape", [], [])).2 = .ok 42 := by
  exact ⟨rfl, rfl, rfl, rfl⟩

/-- C1 (amended): for every command whose operation name resolves via
the dotted-path probe, provided the invocation of the resolved attribute
does not raise `AttributeError`, dispatch returns exactly the
invocation's outcome (value, or any other exception propagated
unchanged), with no unwrap, no forward to the child type, and no
side-effect hook — no dispatch events at all. -/
theorem C1_override_short_circuit_amended (cls : Cls) (ext : HookArgsExt) (cmd : String)
    (args_ : List Nat) (kwargs_ : List (String × Nat)) (a : Attr)
    (hres : cls.rgetattr cmd = some a)
    (hna : a.call args_ kwargs_ ≠ .error .attributeError) :
    cls.handle_func_command ext (cmd, args_, kwargs_) = ([], a.call args_ kwargs_) := by
  cases hcall : a.call args_ kwargs_ with
  | ok v => simp only [Cls.handle_func_command, hres, hcall]
  | error e =>
    cases e with
    | attributeError => exact absurd hcall hna
    | typeError => simp only [Cls.handle_func_command, hres, hcall]
    | runtimeError msg => simp only [Cls.handle_func_command, hres, hcall]
    | otherError m => simp only [Cls.handle_func_command, hres, hcall]

theorem C1_override_short_circuit_amended_witness :
    cls₂.handle_func_command ext₁ ("boom", [], []) = ([], boomAttr.call [] []) :=
  C1_override_short_circuit_amended cls₂ ext₁ "boom" [] [] boomAttr rfl
    (by simp [boomAttr, Attr.call])

/-- C2: the claim fails as stated: an `AttributeError` raised during the
invocation of a successfully resolved override does not propagate to the
caller — it is caught by the same handler as the probe's miss, and
dispatch falls through to the generic path: here the resolved `shape`
override raises `AttributeError`, yet dispatch returns the generic
path's `.ok 42` instead. -/
theorem C2_counterexample :
    cls₁.rgetattr "shape" = some shapeAttr
    ∧ shapeAttr.call [] [] = .error .attributeError
    ∧ (cls₁.handle_func_command ext₁ ("shape", [], [])).2 = .ok 42
    ∧ (cls₁.handle_func_command ext₁ ("shape", [], [])).2 ≠ .error .attributeError := by
  refine ⟨rfl, rfl, rfl, ?_⟩
  have h : (cls₁.handle_func_command ext₁ ("shape", [], [])).2 = .ok 42 := rfl
  rw [h]
  simp

/-- C2 (amended): only `AttributeError` is caught by dispatch: a
resolution miss falls through to generic dispatch with the
operation-name string; an `AttributeError` raised by the invocation of a
successfully resolved override is caught the same way and falls through
with `cmd` already rebound to the resolved attribute; any exception
other than `AttributeError` raised by the invocation propagates to the
caller unchanged. -/
theorem C2_exception_propagation_amended (cls : Cls) (ext : HookArgsExt) (cmd : String)
    (args_ : List Nat) (kwargs_ : List (String × Nat)) :
    (∀ (a : Attr) (e : PyErr), cls.rgetattr cmd = some a →
        a.call args_ kwargs_ = .error e → e ≠ .attributeError →
        cls.handle_func_command ext (cmd, args_, kwargs_) = ([], .error e))
    ∧ (∀ a : Attr, cls.rgetattr cmd = some a →
        a.call args_ kwargs_ = .error .attributeError →
        cls.handle_func_command ext (cmd, args_, kwargs_)
          = cls.generic_dispatch ext (.attr a) args_ kwargs_)
    ∧ (cls.rgetattr cmd = none →
        cls.handle_func_command ext (cmd, args_, kwargs_)
          = cls.generic_dispatch ext (.str cmd) args_ kwargs_) := by
  refine ⟨?_, ?_, ?_⟩
  · intro a e h1 h2 h3
    cases e with
    | attributeError => exact absurd rfl h3
    | typeError => simp only [Cls.handle_func_command, h1, h2]
    | runtimeError msg => simp only [Cls.handle_func_command, h1, h2]
    | otherError m => simp only [Cls.handle_func_command, h1, h2]
  · intro a h1 h2
    simp only [Cls.handle_func_command, h1, h2]
  · intro h1
    simp only [Cls.handle_func_command, h1]

theorem C2_exception_propagation_amended_witness :
    (cls₂.handle_func_command ext₁ ("boom", [], []) = ([], .error (.otherError 1)))
    ∧ (cls₁.handle_func_command ext₁ ("shape", [], [])
        = cls₁.generic_dispatch ext₁ (.attr shapeAttr) [] [])
    ∧ (cls₃.handle_func_command ext₁ ("shape", [], [])
        = cls₃.generic_dispatch ext₁ (.str "shape") [] []) :=
  ⟨(C2_exception_propagation_amended cls₂ ext₁ "boom" [] []).1 boomAttr (.otherError 1)
      rfl rfl (by decide),
   (C2_exception_propagation_amended cls₁ ext₁ "shape" [] []).2.1 shapeAttr rfl rfl,
   (C2_exception_propagation_amended cls₃ ext₁ "shape" [] []).2.2 rfl⟩

end Syft
